import Mathlib

/-!
Verification of the audio capture and transcription orchestration subsystem
(`src/electron/AudioHelper.ts` and the `transcribe-web-audio` handler of
`src/electron/ipcHandlers.ts`), via a shallow embedding.

The filesystem is modelled as an association list from paths to byte lists.
External effects (fresh UUID names, write failures, process-kill failures,
network outcomes, base64 decoding) are passed in as explicit oracle
parameters, so every operation is a pure, executable function.
-/

namespace CoderAudio

/-! ## Filesystem model -/

/-- A filesystem: association list from paths to file contents (bytes).
The most recent write for a path shadows older ones. -/
abbrev Fs := List (String × List Nat)

/-- `fs.writeFileSync(p, content)` -/
def fsWrite (fs : Fs) (p : String) (content : List Nat) : Fs :=
  (p, content) :: fs

/-- `fs.existsSync(p)` -/
def fsExists (fs : Fs) (p : String) : Bool :=
  (fs.lookup p).isSome

/-- `fs.readFileSync(p)` (as an `Option`, `none` when the file is absent) -/
def fsRead (fs : Fs) (p : String) : Option (List Nat) :=
  fs.lookup p

/-- `fs.unlinkSync(p)`: removes every entry for `p`. -/
def fsRemove (fs : Fs) (p : String) : Fs :=
  fs.filter (fun e => e.1 != p)

/-- `path.join(a, b)` for the simple two-segment joins the source performs
(posix-style separator; no normalization is needed for these inputs). -/
def pathJoin (a b : String) : String := a ++ "/" ++ b

/-- `path.isAbsolute(p)` (posix-style model): leading slash. -/
def isAbsolutePath (p : String) : Bool :=
  match p.toList with
  | '/' :: _ => true
  | _ => false

/-- JavaScript `s.split(sep)` for a single-character separator, on the
character list: always at least one (possibly empty) field. -/
def splitOnChar (sep : Char) : List Char → List (List Char)
  | [] => [[]]
  | c :: rest =>
    if c = sep then
      [] :: splitOnChar sep rest
    else
      match splitOnChar sep rest with
      | [] => [[c]]
      | h :: t => (c :: h) :: t

/-- JavaScript `s.split(sep)` for a single-character separator. -/
def splitChar (sep : Char) (s : String) : List String :=
  (splitOnChar sep s.toList).map String.mk

/-! ## The fixed fallback WAV header (AudioHelper.ts, `simulateRecording`) -/

/-- The 44-byte `wavHeader` buffer written by `simulateRecording`
(AudioHelper.ts lines 327-341), byte for byte. -/
def wavHeader : List Nat :=
  [0x52, 0x49, 0x46, 0x46,
   0x24, 0x00, 0x00, 0x00,
   0x57, 0x41, 0x56, 0x45,
   0x66, 0x6d, 0x74, 0x20,
   0x10, 0x00, 0x00, 0x00,
   0x01, 0x00,
   0x01, 0x00,
   0x44, 0xac, 0x00, 0x00,
   0x88, 0x58, 0x01, 0x00,
   0x02, 0x00,
   0x10, 0x00,
   0x64, 0x61, 0x74, 0x61,
   0x00, 0x00, 0x00, 0x00]

/-- Byte at offset `i` (0 when out of range). -/
def byteAt (bs : List Nat) (i : Nat) : Nat := bs.getD i 0

/-- Little-endian 16-bit field at offset `i`. -/
def le16 (bs : List Nat) (i : Nat) : Nat :=
  byteAt bs i + 256 * byteAt bs (i + 1)

/-- Little-endian 32-bit field at offset `i`. -/
def le32 (bs : List Nat) (i : Nat) : Nat :=
  byteAt bs i + 256 * byteAt bs (i + 1) + 65536 * byteAt bs (i + 2) +
    16777216 * byteAt bs (i + 3)

/-- Four-byte tag at offset `i`. -/
def tagAt (bs : List Nat) (i : Nat) : List Nat := (bs.drop i).take 4

/-! ## AudioHelper recording state machine -/

/-- The mutable fields of `AudioHelper` that the recording operations touch:
`isRecording`, `currentRecordingPath`, `recordingProcess` (modelled by its
pid when present). -/
structure AudioState where
  isRecording : Bool
  currentRecordingPath : Option String
  recordingProcess : Option Nat
deriving DecidableEq, Repr

/-- Constructor state: not recording, no path, no process. -/
def initialAudioState : AudioState :=
  { isRecording := false, currentRecordingPath := none, recordingProcess := none }

/-- Result shape `{ success, error?, path? }` of the recording commands. -/
structure OpResult where
  success : Bool
  error : Option String := none
  path : Option String := none
deriving DecidableEq, Repr

/-- `simulateRecording` (AudioHelper.ts lines 323-361): writes the fixed
`wavHeader` to `currentRecordingPath` and sets `isRecording`. `writeOk`
models whether `fs.writeFileSync` succeeds; on failure (or a null path,
where `writeFileSync` throws) the catch block returns a failure result and
leaves the state untouched. -/
def simulateRecording (s : AudioState) (fs : Fs) (writeOk : Bool) :
    OpResult × AudioState × Fs :=
  match s.currentRecordingPath with
  | none =>
      ({ success := false, error := some "Failed to simulate recording" }, s, fs)
  | some p =>
      if writeOk then
        ({ success := true, path := some p },
         { s with isRecording := true }, fsWrite fs p wavHeader)
      else
        ({ success := false, error := some "Failed to simulate recording" }, s, fs)

/-- `startRecording` (AudioHelper.ts lines 129-165): rejects when already
recording, otherwise allocates `audioDir/recording-<uuid>.wav` (the fresh
uuid filename is the `freshName` oracle) and always delegates to
`simulateRecording` (the real-capture path is commented out in the source). -/
def startRecording (s : AudioState) (fs : Fs) (audioDir freshName : String)
    (writeOk : Bool) : OpResult × AudioState × Fs :=
  if s.isRecording then
    ({ success := false, error := some "Already recording" }, s, fs)
  else
    simulateRecording
      { s with currentRecordingPath := some (pathJoin audioDir freshName) }
      fs writeOk

/-- Lines 412-441 of `stopRecording`: the artifact existence check followed
by the state reset. When the path is set but the file is missing, the
function returns the missing-artifact error WITHOUT resetting the state
(the early return at line 428 precedes the reset at lines 432-435). -/
def stopFinish (s : AudioState) (fs : Fs) : OpResult × AudioState × Fs :=
  match s.currentRecordingPath with
  | some p =>
      if fsExists fs p then
        ({ success := true, path := some p },
         { s with isRecording := false, currentRecordingPath := none }, fs)
      else
        ({ success := false, error := some "Recording file not found after stopping" },
         s, fs)
  | none =>
      ({ success := true, path := none },
       { s with isRecording := false, currentRecordingPath := none }, fs)

/-- `stopRecording` (AudioHelper.ts lines 366-451). Oracles: `platform` is
`process.platform`; `killThrows` models `recordingProcess.kill()` throwing.
On win32 kill/taskkill errors are swallowed by inner try/catch blocks; on
other platforms a kill error propagates to the outer catch, which resets
`isRecording` and `currentRecordingPath` (but not `recordingProcess`).
For a fallback session (no process) a missing artifact throws at line 408,
reaching the same outer catch. -/
def stopRecording (s : AudioState) (fs : Fs) (platform : String)
    (killThrows : Bool) : OpResult × AudioState × Fs :=
  if !s.isRecording then
    ({ success := false, error := some "Not currently recording" }, s, fs)
  else
    match s.recordingProcess with
    | some _ =>
        if platform != "win32" && killThrows then
          ({ success := false,
             error := some "Failed to stop recording: kill error" },
           { s with isRecording := false, currentRecordingPath := none }, fs)
        else
          stopFinish { s with recordingProcess := none } fs
    | none =>
        match s.currentRecordingPath with
        | some p =>
            if fsExists fs p then
              stopFinish s fs
            else
              ({ success := false,
                 error := some "Failed to stop recording: Recording file not found" },
               { s with isRecording := false, currentRecordingPath := none }, fs)
        | none => stopFinish s fs

/-- Status shape `{ recording, path }`. -/
structure RecordingStatus where
  recording : Bool
  path : Option String
deriving DecidableEq, Repr

/-- `getRecordingStatus` (AudioHelper.ts lines 610-615): a pure read. -/
def getRecordingStatus (s : AudioState) : RecordingStatus :=
  { recording := s.isRecording, path := s.currentRecordingPath }

/-! ## Operation sequences over the recording state machine -/

/-- One externally drivable operation, with its oracle inputs. -/
inductive AudioOp
  | start (freshName : String) (writeOk : Bool)
  | stop (platform : String) (killThrows : Bool)
  | simulate (writeOk : Bool)
  | status
deriving DecidableEq, Repr

/-- Apply one operation (discarding the returned result). -/
def applyOp (audioDir : String) (w : AudioState × Fs) (op : AudioOp) :
    AudioState × Fs :=
  match op with
  | .start n wo => (startRecording w.1 w.2 audioDir n wo).2
  | .stop plat kt => (stopRecording w.1 w.2 plat kt).2
  | .simulate wo => (simulateRecording w.1 w.2 wo).2
  | .status => w

/-- Run a sequence of operations from the constructor state over an
initially empty filesystem. -/
def runOps (audioDir : String) (ops : List AudioOp) : AudioState × Fs :=
  ops.foldl (applyOp audioDir) (initialAudioState, [])

/-- The spec-level session state set `{Idle, Recording, Stopping}`. -/
inductive SessionState
  | Idle
  | Recording
  | Stopping
deriving DecidableEq, Repr

/-- Abstraction from the implementation state to the spec state machine:
`isRecording` false is `Idle`, true is `Recording` (the implementation has
no separate `Stopping` flag; `Stopping` only exists transiently inside
`stopRecording`). -/
def sessionStateOf (s : AudioState) : SessionState :=
  if s.isRecording then SessionState.Recording else SessionState.Idle

/-- The implicit invariant of claim C10: a recording flag set to true
implies a non-null current recording path. -/
def audioInv (s : AudioState) : Bool :=
  !s.isRecording || s.currentRecordingPath.isSome

/-! ## Device discovery (`listAudioDevices`, AudioHelper.ts lines 61-124) -/

/-- JavaScript `device.includes(sub)`: substring containment. -/
def strContains (device sub : String) : Bool :=
  decide (sub.toList <:+: device.toList)

/-- First match of the regex `/"([^"]+)"/` on a line: scans left to right
for a double quote followed by at least one non-quote character and a
closing double quote, and returns the captured group. -/
def firstQuoted : List Char → Option String
  | [] => none
  | c :: rest =>
    if c = '"' then
      let content := rest.takeWhile (fun ch => ch ≠ '"')
      match rest.dropWhile (fun ch => ch ≠ '"') with
      | [] => none
      | _ :: _ => if content.isEmpty then firstQuoted rest else some (String.mk content)
    else firstQuoted rest

/-- One iteration of the parsing loop (lines 91-103): a line yields a device
name when it contains the `(audio)` marker and has a quoted name. -/
def parseAudioDeviceLine (line : String) : Option String :=
  if strContains line "(audio)" then firstQuoted line.toList else none

/-- `listAudioDevices` parsing (lines 84-119), as a function of
`process.platform` and the diagnostic `stderr` text: the parsing block runs
only when the platform is `win32`; otherwise `audioDevices` stays empty. -/
def listAudioDevices (platform stderrText : String) : List String :=
  if platform = "win32" then
    (splitChar '\n' stderrText).filterMap parseAudioDeviceLine
  else
    []

/-- The microphone keyword set of the discovery loop (line 108). -/
def commonMicNames : List String :=
  ["Microphone", "Mic", "Audio", "Input", "Headset"]

/-- The inner loop of lines 109-116: the first keyword (in the fixed order)
contained in the device name, if any (the loop breaks at the first hit). -/
def firstMicKeyword (device : String) : Option String :=
  commonMicNames.find? (fun n => strContains device n)

/-- A device is a likely microphone exactly when the loop found a keyword. -/
def isLikelyMicrophone (device : String) : Bool :=
  (firstMicKeyword device).isSome

/-- The extraction the claim describes, written independently of the
implementation: keep the lines containing the audio marker, then take each
line's quoted name, in order of appearance (platform plays no role). -/
def claimDevices (stderrText : String) : List String :=
  ((splitChar '\n' stderrText).filter (fun l => strContains l "(audio)")).filterMap
    (fun l => firstQuoted l.toList)

/-! ## Transcription client (`transcribeAudio`, AudioHelper.ts lines 456-605) -/

/-- Result shape `{ success, error?, text? }` of the transcription commands. -/
structure TResult where
  success : Bool
  error : Option String := none
  text : Option String := none
deriving DecidableEq, Repr

/-- Outcome of the `fetch` call to the transcription endpoint: a successful
response with transcript text, a non-ok HTTP response (with the structured
error message when the body parses, else the status text), or an abort
raised by the cancellation timer. -/
inductive NetOutcome
  | ok (text : String)
  | httpError (errMsg : Option String) (statusText : String)
  | aborted
deriving DecidableEq, Repr

/-- The message of the `AbortError` the fetch promise rejects with. -/
def abortErrorMessage : String := "The user aborted a request"

/-- `if (!config.apiKey)`: a missing or empty key is falsy. -/
def hasKey : Option String → Bool
  | none => false
  | some k => k != ""

/-- Lines 461: resolve the argument against the audio directory. -/
def resolvePath (audioDir audioPath : String) : String :=
  if isAbsolutePath audioPath then audioPath else pathJoin audioDir audioPath

/-- `transcribeAudio` (lines 456-605). Returns the result, whether the
network request was issued, and whether `clearTimeout` ran (the `finally`
at line 514 runs on every fetch outcome). Non-ok responses and the abort
raise, and the outer catch maps them to `Failed to transcribe audio: ...`. -/
def transcribeAudio (fs : Fs) (audioDir : String) (apiKey : Option String)
    (net : NetOutcome) (audioPath : String) : TResult × Bool × Bool :=
  let fullPath := resolvePath audioDir audioPath
  if !fsExists fs fullPath then
    ({ success := false, error := some "Audio file not found" }, false, false)
  else if !hasKey apiKey then
    ({ success := false, error := some "OpenAI API key not configured" }, false, false)
  else
    match net with
    | .ok t => ({ success := true, text := some t }, true, true)
    | .httpError m st =>
        ({ success := false,
           error := some ("Failed to transcribe audio: OpenAI API error: " ++ m.getD st) },
         true, true)
    | .aborted =>
        ({ success := false,
           error := some ("Failed to transcribe audio: " ++ abortErrorMessage) },
         true, true)

/-- `setTimeout(() => controller.abort(), 30000)` (line 490). -/
def transcriptionTimeoutMs : Nat := 30000

/-- The fetch outcome as a function of how long the request takes: past the
30-second timer the abort fires and wins; otherwise the server's response
comes through. -/
def fetchOutcome (durationMs : Nat) (resp : NetOutcome) : NetOutcome :=
  if transcriptionTimeoutMs < durationMs then NetOutcome.aborted else resp

/-- `transcribeAudio` with the timer made explicit. -/
def transcribeAudioTimed (fs : Fs) (audioDir : String) (apiKey : Option String)
    (durationMs : Nat) (resp : NetOutcome) (audioPath : String) :
    TResult × Bool × Bool :=
  transcribeAudio fs audioDir apiKey (fetchOutcome durationMs resp) audioPath

/-! ## Gateway: `transcribe-web-audio` (ipcHandlers.ts lines 372-451) -/

/-- The `transcribe-web-audio` handler. `b64decode` models
`Buffer.from(s, "base64")` (total on defined strings: Node skips invalid
characters). When the payload has no comma, `split(',')[1]` is undefined
and `Buffer.from(undefined, ...)` throws, landing in the outer catch before
any file is written. Otherwise the decoded bytes are written to `tempPath`,
`transcribeAudio` is called (it never throws: its whole body is wrapped in
try/catch), and the temporary file is unlinked before returning the result,
whatever the result was. -/
def transcribeWebAudio (hasApiKey helperAvailable : Bool)
    (b64decode : String → List Nat) (payload tempPath : String) (fs : Fs)
    (audioDir : String) (apiKey : Option String) (net : NetOutcome) :
    TResult × Fs :=
  if !hasApiKey then
    ({ success := false, error := some "API key required" }, fs)
  else if !helperAvailable then
    ({ success := false, error := some "Audio helper not available" }, fs)
  else
    match (splitChar ',' payload)[1]? with
    | none =>
        ({ success := false, error := some "Failed to transcribe audio" }, fs)
    | some b64 =>
        let fs1 := fsWrite fs tempPath (b64decode b64)
        let r := transcribeAudio fs1 audioDir apiKey net tempPath
        (r.1, fsRemove fs1 tempPath)

/-! ## Helper lemmas -/

/-- Removing a path from the filesystem makes lookups on it fail. -/
theorem fsRead_fsRemove (fs : Fs) (p : String) : fsRead (fsRemove fs p) p = none := by
  simp only [fsRead, fsRemove, List.lookup_eq_none_iff]
  intro e he
  have h2 : (e.1 != p) = true := (List.mem_filter.mp he).2
  simp only [bne_iff_ne] at h2 ⊢
  exact Ne.symm h2

/-! ## Claim theorems -/

/-- C3: every successful run of the fallback synthesizer `simulateRecording`
writes to the current recording path a file that is exactly the fixed
44-byte WAV header, which declares PCM format (1), one channel, a 44100 Hz
sample rate, 16 bits per sample, and a zero-length data chunk (the RIFF,
WAVE, fmt and data tags are all in place and the RIFF chunk size is 36, so
the file consists solely of the header). -/
theorem simulateRecording_writes_valid_wav
    (s : AudioState) (fs : Fs) (writeOk : Bool)
    (h : (simulateRecording s fs writeOk).1.success = true) :
    ∃ p, s.currentRecordingPath = some p ∧
      (simulateRecording s fs writeOk).1.path = some p ∧
      fsRead (simulateRecording s fs writeOk).2.2 p = some wavHeader ∧
      wavHeader.length = 44 ∧
      tagAt wavHeader 0 = [0x52, 0x49, 0x46, 0x46] ∧
      tagAt wavHeader 8 = [0x57, 0x41, 0x56, 0x45] ∧
      tagAt wavHeader 12 = [0x66, 0x6d, 0x74, 0x20] ∧
      tagAt wavHeader 36 = [0x64, 0x61, 0x74, 0x61] ∧
      le32 wavHeader 4 = 36 ∧
      le32 wavHeader 16 = 16 ∧
      le16 wavHeader 20 = 1 ∧
      le16 wavHeader 22 = 1 ∧
      le32 wavHeader 24 = 44100 ∧
      le32 wavHeader 28 = 88200 ∧
      le16 wavHeader 32 = 2 ∧
      le16 wavHeader 34 = 16 ∧
      le32 wavHeader 40 = 0 := by
  cases hp : s.currentRecordingPath with
  | none => simp [simulateRecording, hp] at h
  | some p =>
    cases writeOk with
    | false => simp [simulateRecording, hp] at h
    | true =>
      refine ⟨p, rfl, ?_, ?_, ?_, ?_, ?_, ?_, ?_, ?_, ?_, ?_, ?_, ?_, ?_, ?_, ?_, ?_⟩ <;>
        first
          | decide
          | simp [simulateRecording, hp, fsRead, fsWrite]

/-- C3 witness: a concrete successful run. -/
theorem simulateRecording_writes_valid_wav_witness :
    (simulateRecording ⟨false, some "/userData/audio/recording-1.wav", none⟩ [] true).1.success = true ∧
    (∃ p, (⟨false, some "/userData/audio/recording-1.wav", none⟩ : AudioState).currentRecordingPath = some p ∧
      (simulateRecording ⟨false, some "/userData/audio/recording-1.wav", none⟩ [] true).1.path = some p ∧
      fsRead (simulateRecording ⟨false, some "/userData/audio/recording-1.wav", none⟩ [] true).2.2 p = some wavHeader ∧
      wavHeader.length = 44 ∧
      tagAt wavHeader 0 = [0x52, 0x49, 0x46, 0x46] ∧
      tagAt wavHeader 8 = [0x57, 0x41, 0x56, 0x45] ∧
      tagAt wavHeader 12 = [0x66, 0x6d, 0x74, 0x20] ∧
      tagAt wavHeader 36 = [0x64, 0x61, 0x74, 0x61] ∧
      le32 wavHeader 4 = 36 ∧
      le32 wavHeader 16 = 16 ∧
      le16 wavHeader 20 = 1 ∧
      le16 wavHeader 22 = 1 ∧
      le32 wavHeader 24 = 44100 ∧
      le32 wavHeader 28 = 88200 ∧
      le16 wavHeader 32 = 2 ∧
      le16 wavHeader 34 = 16 ∧
      le32 wavHeader 40 = 0) :=
  ⟨by decide,
   simulateRecording_writes_valid_wav ⟨false, some "/userData/audio/recording-1.wav", none⟩ [] true (by decide)⟩

/-- C5: when no file exists at the resolved location (the path itself when
absolute, else the path joined under the audio directory), `transcribeAudio`
fails with the artifact-not-found error and issues no network request (and
never even starts the timeout timer). -/
theorem transcribeAudio_missing_artifact_no_network
    (fs : Fs) (audioDir : String) (apiKey : Option String) (net : NetOutcome)
    (audioPath : String)
    (h : fsExists fs (resolvePath audioDir audioPath) = false) :
    transcribeAudio fs audioDir apiKey net audioPath =
      ({ success := false, error := some "Audio file not found" }, false, false) := by
  simp [transcribeAudio, h]

/-- C5 witness: a concrete relative path with an empty filesystem. -/
theorem transcribeAudio_missing_artifact_no_network_witness :
    fsExists [] (resolvePath "/userData/audio" "missing.wav") = false ∧
    transcribeAudio [] "/userData/audio" (some "sk-key") (NetOutcome.ok "hi") "missing.wav" =
      ({ success := false, error := some "Audio file not found" }, false, false) :=
  ⟨by decide,
   transcribeAudio_missing_artifact_no_network [] "/userData/audio" (some "sk-key")
     (NetOutcome.ok "hi") "missing.wav" (by decide)⟩

/-- C6: when the artifact file exists but the configuration reports no API
key (absent or empty, both falsy in the source's check), `transcribeAudio`
fails with the credential-missing error and issues no network request. -/
theorem transcribeAudio_missing_credential_no_network
    (fs : Fs) (audioDir : String) (apiKey : Option String) (net : NetOutcome)
    (audioPath : String)
    (h1 : fsExists fs (resolvePath audioDir audioPath) = true)
    (h2 : hasKey apiKey = false) :
    transcribeAudio fs audioDir apiKey net audioPath =
      ({ success := false, error := some "OpenAI API key not configured" }, false, false) := by
  simp [transcribeAudio, h1, h2]

/-- C6 witness: an existing artifact and an absent key. -/
theorem transcribeAudio_missing_credential_no_network_witness :
    fsExists [("/userData/audio/a.wav", wavHeader)] (resolvePath "/userData/audio" "a.wav") = true ∧
    hasKey none = false ∧
    transcribeAudio [("/userData/audio/a.wav", wavHeader)] "/userData/audio" none
        (NetOutcome.ok "hi") "a.wav" =
      ({ success := false, error := some "OpenAI API key not configured" }, false, false) :=
  ⟨by decide, by decide,
   transcribeAudio_missing_credential_no_network [("/userData/audio/a.wav", wavHeader)]
     "/userData/audio" none (NetOutcome.ok "hi") "a.wav" (by decide) (by decide)⟩

/-- C7: when the network request takes longer than the 30-second timer
(30000 ms), the abort fires and wins over whatever the server would have
answered, the call fails with the abort (request-timeout) error, and the
timer is cleared before the call returns (second and third booleans: the
request was issued and `clearTimeout` ran in the `finally`). -/
theorem transcribeAudio_timeout_aborts
    (fs : Fs) (audioDir : String) (apiKey : Option String) (durationMs : Nat)
    (resp : NetOutcome) (audioPath : String)
    (h1 : fsExists fs (resolvePath audioDir audioPath) = true)
    (h2 : hasKey apiKey = true)
    (h3 : transcriptionTimeoutMs < durationMs) :
    fetchOutcome durationMs resp = NetOutcome.aborted ∧
    transcribeAudioTimed fs audioDir apiKey durationMs resp audioPath =
      ({ success := false,
         error := some ("Failed to transcribe audio: " ++ abortErrorMessage) },
       true, true) := by
  have ha : fetchOutcome durationMs resp = NetOutcome.aborted := by
    simp [fetchOutcome, h3]
  exact ⟨ha, by simp [transcribeAudioTimed, transcribeAudio, h1, h2, ha]⟩

/-- C7 witness: a request that takes 30001 ms. -/
theorem transcribeAudio_timeout_aborts_witness :
    fsExists [("/tmp/va/w.webm", [1, 2])] (resolvePath "/userData/audio" "/tmp/va/w.webm") = true ∧
    hasKey (some "sk-key") = true ∧
    transcriptionTimeoutMs < 30001 ∧
    fetchOutcome 30001 (NetOutcome.ok "hi") = NetOutcome.aborted ∧
    transcribeAudioTimed [("/tmp/va/w.webm", [1, 2])] "/userData/audio" (some "sk-key")
        30001 (NetOutcome.ok "hi") "/tmp/va/w.webm" =
      ({ success := false,
         error := some ("Failed to transcribe audio: " ++ abortErrorMessage) },
       true, true) := by
  refine ⟨by decide, by decide, by decide, ?_⟩
  exact transcribeAudio_timeout_aborts [("/tmp/va/w.webm", [1, 2])] "/userData/audio"
    (some "sk-key") 30001 (NetOutcome.ok "hi") "/tmp/va/w.webm" (by decide) (by decide) (by decide)

/-- C4: whenever the `transcribe-web-audio` handler decodes the payload and
writes it to the temporary file (guards passed and the data URL had a
comma), the temporary file is absent from the filesystem the handler
returns, for every transcription outcome `net` (success, HTTP error or
abort alike), and the handler returns exactly the transcription call's
result. -/
theorem transcribeWebAudio_tempFile_deleted
    (b64decode : String → List Nat) (payload tempPath : String) (fs : Fs)
    (audioDir : String) (apiKey : Option String) (net : NetOutcome) (b64 : String)
    (h : (splitChar ',' payload)[1]? = some b64) :
    fsRead (transcribeWebAudio true true b64decode payload tempPath fs audioDir apiKey net).2
        tempPath = none ∧
    (transcribeWebAudio true true b64decode payload tempPath fs audioDir apiKey net).1 =
      (transcribeAudio (fsWrite fs tempPath (b64decode b64)) audioDir apiKey net tempPath).1 := by
  constructor
  · simp [transcribeWebAudio, h, fsRead_fsRemove]
  · simp [transcribeWebAudio, h]

/-- C4 witness: a concrete well-formed data URL, checked for both a
successful and a failed transcription outcome. -/
theorem transcribeWebAudio_tempFile_deleted_witness :
    (splitChar ',' "data:audio/webm;base64,AAAA")[1]? = some "AAAA" ∧
    fsRead (transcribeWebAudio true true (fun _ => [0, 0, 0]) "data:audio/webm;base64,AAAA"
        "/tmp/va/w.webm" [] "/userData/audio" (some "sk-key") (NetOutcome.ok "hi")).2
        "/tmp/va/w.webm" = none ∧
    fsRead (transcribeWebAudio true true (fun _ => [0, 0, 0]) "data:audio/webm;base64,AAAA"
        "/tmp/va/w.webm" [] "/userData/audio" (some "sk-key") NetOutcome.aborted).2
        "/tmp/va/w.webm" = none :=
  ⟨by decide,
   (transcribeWebAudio_tempFile_deleted (fun _ => [0, 0, 0]) "data:audio/webm;base64,AAAA"
     "/tmp/va/w.webm" [] "/userData/audio" (some "sk-key") (NetOutcome.ok "hi") "AAAA" (by decide)).1,
   (transcribeWebAudio_tempFile_deleted (fun _ => [0, 0, 0]) "data:audio/webm;base64,AAAA"
     "/tmp/va/w.webm" [] "/userData/audio" (some "sk-key") NetOutcome.aborted "AAAA" (by decide)).1⟩

/-- C8: a device name is marked a likely microphone exactly when it contains
one of the five case-sensitive keywords `Microphone`, `Mic`, `Audio`,
`Input`, `Headset`; and when several keywords are contained, the keyword the
loop settles on (`firstMicKeyword`, where the loop breaks) is the first one
in that fixed order: the keyword list decomposes around it with every
earlier keyword failing the containment test. -/
theorem isLikelyMicrophone_keyword_characterization (device : String) :
    (isLikelyMicrophone device = true ↔
      ∃ n, n ∈ commonMicNames ∧ strContains device n = true) ∧
    (∀ n, firstMicKeyword device = some n →
      strContains device n = true ∧
      ∃ l1 l2, commonMicNames = l1 ++ n :: l2 ∧
        ∀ m ∈ l1, strContains device m = false) := by
  constructor
  · unfold isLikelyMicrophone firstMicKeyword
    simp only [List.find?_isSome]
  · intro n hn
    unfold firstMicKeyword at hn
    rw [List.find?_eq_some] at hn
    obtain ⟨hp, l1, l2, he, hl1⟩ := hn
    refine ⟨hp, l1, l2, he, fun m hm => ?_⟩
    simpa using hl1 m hm

/-- C8 witness: `"Realtek Audio Input"` contains both `Audio` and `Input`;
the loop settles on `Audio`, the earlier keyword of the two. -/
theorem isLikelyMicrophone_keyword_characterization_witness :
    isLikelyMicrophone "Realtek Audio Input" = true ∧
    firstMicKeyword "Realtek Audio Input" = some "Audio" ∧
    strContains "Realtek Audio Input" "Audio" = true ∧
    (∃ l1 l2, commonMicNames = l1 ++ "Audio" :: l2 ∧
      ∀ m ∈ l1, strContains "Realtek Audio Input" m = false) := by
  refine ⟨by decide, by decide, ?_, ?_⟩
  · exact ((isLikelyMicrophone_keyword_characterization "Realtek Audio Input").2
      "Audio" (by decide)).1
  · exact ((isLikelyMicrophone_keyword_characterization "Realtek Audio Input").2
      "Audio" (by decide)).2

/-- Guarded `filterMap` equals filtering then extracting. -/
theorem filterMap_guard {α β : Type} (q : α → Bool) (g : α → Option β) :
    ∀ l : List α, l.filterMap (fun x => if q x then g x else none) =
      (l.filter q).filterMap g := by
  intro l
  induction l with
  | nil => rfl
  | cons c t ih =>
    by_cases hc : q c = true
    · simp [List.filterMap_cons, List.filter_cons, hc, ih]
    · simp [List.filterMap_cons, List.filter_cons, hc, ih]

/-- C9 counterexample: the claim says device names are extracted on every
host platform, but the parsing block of `listAudioDevices` runs only when
`process.platform` is `win32`. On `darwin` a diagnostic line that contains
the `(audio)` marker and a quoted name yields nothing, while the extraction
the claim describes yields the name. -/
theorem listAudioDevices_platform_counterexample :
    listAudioDevices "darwin" "[0] \"Built-in Microphone\" (audio)" = [] ∧
    claimDevices "[0] \"Built-in Microphone\" (audio)" = ["Built-in Microphone"] := by
  exact ⟨by decide, by decide⟩

/-- C9 (amended): on the `win32` platform, `listAudioDevices` returns
exactly the names extracted from the quoted text of the output lines that
contain the `(audio)` marker, in order of appearance; on every other
platform it returns the empty list. -/
theorem listAudioDevices_platform_characterization (platform stderrText : String) :
    (platform = "win32" →
      listAudioDevices platform stderrText = claimDevices stderrText) ∧
    (platform ≠ "win32" → listAudioDevices platform stderrText = []) := by
  constructor
  · intro h
    subst h
    unfold listAudioDevices claimDevices
    rw [if_pos rfl]
    exact filterMap_guard (fun l => strContains l "(audio)") (fun l => firstQuoted l.toList) _
  · intro h
    unfold listAudioDevices
    rw [if_neg h]

/-- C9 witness: a two-device Windows listing parses in order; the same text
on linux yields nothing. -/
theorem listAudioDevices_platform_characterization_witness :
    listAudioDevices "win32" "[dshow] \"Mic A\" (audio)\n[dshow] \"Cam\" (video)\n[dshow] \"Headset B\" (audio)" =
      claimDevices "[dshow] \"Mic A\" (audio)\n[dshow] \"Cam\" (video)\n[dshow] \"Headset B\" (audio)" ∧
    claimDevices "[dshow] \"Mic A\" (audio)\n[dshow] \"Cam\" (video)\n[dshow] \"Headset B\" (audio)" =
      ["Mic A", "Headset B"] ∧
    listAudioDevices "linux" "[dshow] \"Mic A\" (audio)" = [] :=
  ⟨(listAudioDevices_platform_characterization "win32" _).1 rfl,
   by decide,
   (listAudioDevices_platform_characterization "linux" _).2 (by decide)⟩

/-- C1 counterexample: a real-capture session (process handle present) whose
artifact file is missing. `stopRecording` returns the missing-artifact error
but does NOT reset the state: the recording flag stays true and the path
stays set, because the early return at line 428 of AudioHelper.ts precedes
the reset at lines 432-435. -/
theorem stopRecording_missing_artifact_counterexample :
    (⟨true, some "/userData/audio/recording-1.wav", some 7⟩ : AudioState).isRecording = true ∧
    (stopRecording ⟨true, some "/userData/audio/recording-1.wav", some 7⟩ [] "win32" false).1 =
      { success := false, error := some "Recording file not found after stopping" } ∧
    (stopRecording ⟨true, some "/userData/audio/recording-1.wav", some 7⟩ [] "win32" false).2.1 =
      ⟨true, some "/userData/audio/recording-1.wav", none⟩ :=
  ⟨by decide, by decide, by decide⟩

/-- C1 (amended): `stopRecording` on an active session resets the controller
to Idle (flag false, path cleared) on every path — including kill failures
and, for fallback sessions, a missing artifact — except exactly one: when
the session holds a process handle, no uncaught kill error occurred, and the
artifact file is missing; then it returns the missing-artifact error while
leaving the recording flag true and the path set (only the process handle is
cleared). -/
theorem stopRecording_idle_characterization
    (s : AudioState) (fs : Fs) (platform : String) (killThrows : Bool)
    (h : s.isRecording = true) :
    (∃ pid p, s.recordingProcess = some pid ∧ s.currentRecordingPath = some p ∧
        fsExists fs p = false ∧ (platform != "win32" && killThrows) = false ∧
        stopRecording s fs platform killThrows =
          ({ success := false, error := some "Recording file not found after stopping" },
           { s with recordingProcess := none }, fs)) ∨
    ((stopRecording s fs platform killThrows).2.1.isRecording = false ∧
     (stopRecording s fs platform killThrows).2.1.currentRecordingPath = none) := by
  rcases hproc : s.recordingProcess with _ | pid
  · right
    rcases hpath : s.currentRecordingPath with _ | p
    · simp [stopRecording, stopFinish, h, hproc, hpath]
    · by_cases hex : fsExists fs p = true
      · simp [stopRecording, stopFinish, h, hproc, hpath, hex]
      · simp [stopRecording, h, hproc, hpath, hex]
  · by_cases hkill : (platform != "win32" && killThrows) = true
    · right
      simp [stopRecording, h, hproc, hkill]
    · rcases hpath : s.currentRecordingPath with _ | p
      · right
        simp [stopRecording, stopFinish, h, hproc, hpath, hkill]
      · by_cases hex : fsExists fs p = true
        · right
          simp [stopRecording, stopFinish, h, hproc, hpath, hkill, hex]
        · left
          refine ⟨pid, p, rfl, rfl, by simpa using hex, by simpa using hkill, ?_⟩
          simp [stopRecording, stopFinish, h, hproc, hpath, hkill, hex]

/-- C1 witness: an active fallback session with its artifact present. -/
theorem stopRecording_idle_characterization_witness :
    (⟨true, some "/userData/audio/r.wav", none⟩ : AudioState).isRecording = true ∧
    ((∃ pid p,
        (⟨true, some "/userData/audio/r.wav", none⟩ : AudioState).recordingProcess = some pid ∧
        (⟨true, some "/userData/audio/r.wav", none⟩ : AudioState).currentRecordingPath = some p ∧
        fsExists [("/userData/audio/r.wav", wavHeader)] p = false ∧
        (("win32" != "win32") && false) = false ∧
        stopRecording ⟨true, some "/userData/audio/r.wav", none⟩
            [("/userData/audio/r.wav", wavHeader)] "win32" false =
          ({ success := false, error := some "Recording file not found after stopping" },
           { (⟨true, some "/userData/audio/r.wav", none⟩ : AudioState) with
               recordingProcess := none },
           [("/userData/audio/r.wav", wavHeader)])) ∨
     ((stopRecording ⟨true, some "/userData/audio/r.wav", none⟩
         [("/userData/audio/r.wav", wavHeader)] "win32" false).2.1.isRecording = false ∧
      (stopRecording ⟨true, some "/userData/audio/r.wav", none⟩
         [("/userData/audio/r.wav", wavHeader)] "win32" false).2.1.currentRecordingPath = none)) :=
  ⟨rfl,
   stopRecording_idle_characterization ⟨true, some "/userData/audio/r.wav", none⟩
     [("/userData/audio/r.wav", wavHeader)] "win32" false rfl⟩

/-- C2: along every sequence of operations the abstracted session state
stays within `{Idle, Recording, Stopping}`, and a `startRecording` issued
while a session is active fails with the already-recording error and leaves
the state (flag, artifact path, process handle) and the filesystem
completely unchanged — the request is rejected, not queued. -/
theorem session_state_domain_and_start_guard
    (audioDir : String) (ops : List AudioOp) (s : AudioState) (fs : Fs)
    (freshName : String) (writeOk : Bool)
    (h : s.isRecording = true) :
    (sessionStateOf (runOps audioDir ops).1 = SessionState.Idle ∨
     sessionStateOf (runOps audioDir ops).1 = SessionState.Recording ∨
     sessionStateOf (runOps audioDir ops).1 = SessionState.Stopping) ∧
    startRecording s fs audioDir freshName writeOk =
      ({ success := false, error := some "Already recording" }, s, fs) := by
  constructor
  · unfold sessionStateOf
    by_cases hr : (runOps audioDir ops).1.isRecording = true
    · right
      left
      simp [hr]
    · left
      simp [hr]
  · simp [startRecording, h]

/-- C2 witness: a second start from a concrete recording state. -/
theorem session_state_domain_and_start_guard_witness :
    (⟨true, some "/userData/audio/recording-1.wav", none⟩ : AudioState).isRecording = true ∧
    ((sessionStateOf (runOps "/userData/audio" []).1 = SessionState.Idle ∨
      sessionStateOf (runOps "/userData/audio" []).1 = SessionState.Recording ∨
      sessionStateOf (runOps "/userData/audio" []).1 = SessionState.Stopping) ∧
     startRecording ⟨true, some "/userData/audio/recording-1.wav", none⟩ []
         "/userData/audio" "recording-2.wav" true =
       ({ success := false, error := some "Already recording" },
        ⟨true, some "/userData/audio/recording-1.wav", none⟩, [])) :=
  ⟨rfl,
   session_state_domain_and_start_guard "/userData/audio" []
     ⟨true, some "/userData/audio/recording-1.wav", none⟩ [] "recording-2.wav" true rfl⟩

/-- One operation preserves the recording-implies-path invariant. -/
theorem audioInv_step (audioDir : String) (w : AudioState × Fs) (op : AudioOp)
    (h : audioInv w.1 = true) : audioInv (applyOp audioDir w op).1 = true := by
  obtain ⟨s, fs⟩ := w
  cases op with
  | start n wo =>
    by_cases hr : s.isRecording = true
    · simpa [applyOp, startRecording, hr] using h
    · have hr2 : s.isRecording = false := by simpa using hr
      cases wo <;> simp [applyOp, startRecording, hr2, simulateRecording, audioInv]
  | simulate wo =>
    rcases hpath : s.currentRecordingPath with _ | p
    · simpa [applyOp, simulateRecording, hpath] using h
    · cases wo
      · simpa [applyOp, simulateRecording, hpath] using h
      · simp [applyOp, simulateRecording, hpath, audioInv]
  | stop plat kt =>
    by_cases hr : s.isRecording = true
    · rcases hproc : s.recordingProcess with _ | pid
      · rcases hpath : s.currentRecordingPath with _ | p
        · simp [applyOp, stopRecording, stopFinish, hr, hproc, hpath, audioInv]
        · by_cases hex : fsExists fs p = true
          · simp [applyOp, stopRecording, stopFinish, hr, hproc, hpath, hex, audioInv]
          · simp [applyOp, stopRecording, hr, hproc, hpath, hex, audioInv]
      · by_cases hkill : (plat != "win32" && kt) = true
        · simp [applyOp, stopRecording, hr, hproc, hkill, audioInv]
        · rcases hpath : s.currentRecordingPath with _ | p
          · simp [applyOp, stopRecording, stopFinish, hr, hproc, hpath, hkill, audioInv]
          · by_cases hex : fsExists fs p = true
            · simp [applyOp, stopRecording, stopFinish, hr, hproc, hpath, hkill, hex, audioInv]
            · simp [applyOp, stopRecording, stopFinish, hr, hproc, hpath, hkill, hex, audioInv]
    · have hr2 : s.isRecording = false := by simpa using hr
      simpa [applyOp, stopRecording, hr2] using h
  | status => exact h

/-- The invariant holds along every run from the constructor state. -/
theorem audioInv_runOps (audioDir : String) (ops : List AudioOp) :
    audioInv (runOps audioDir ops).1 = true := by
  have H : ∀ (l : List AudioOp) (w : AudioState × Fs), audioInv w.1 = true →
      audioInv (l.foldl (applyOp audioDir) w).1 = true := by
    intro l
    induction l with
    | nil =>
      intro w hw
      simpa using hw
    | cons o t ih =>
      intro w hw
      exact ih (applyOp audioDir w o) (audioInv_step audioDir w o hw)
  exact H ops (initialAudioState, []) rfl

/-- A state satisfying the invariant never reports recording with a null path. -/
theorem status_never_recording_null (s : AudioState) (h : audioInv s = true) :
    getRecordingStatus s ≠ { recording := true, path := none } := by
  intro he
  have h1 : s.isRecording = true := congrArg RecordingStatus.recording he
  have h2 : s.currentRecordingPath = none := congrArg RecordingStatus.path he
  rw [audioInv, h1, h2] at h
  simp at h

/-- C10: every operation of the helper (startRecording, simulateRecording,
stopRecording, getRecordingStatus) preserves the invariant that a true
recording flag comes with a non-null current recording path; the invariant
holds along every operation sequence from the constructor state, and
consequently `getRecordingStatus` never returns
`{recording: true, path: null}`. -/
theorem audioInv_preserved
    (audioDir : String) (s : AudioState) (fs : Fs) (op : AudioOp)
    (ops : List AudioOp) (h : audioInv s = true) :
    audioInv (applyOp audioDir (s, fs) op).1 = true ∧
    getRecordingStatus (applyOp audioDir (s, fs) op).1 ≠
      { recording := true, path := none } ∧
    audioInv (runOps audioDir ops).1 = true ∧
    getRecordingStatus (runOps audioDir ops).1 ≠
      { recording := true, path := none } :=
  ⟨audioInv_step audioDir (s, fs) op h,
   status_never_recording_null _ (audioInv_step audioDir (s, fs) op h),
   audioInv_runOps audioDir ops,
   status_never_recording_null _ (audioInv_runOps audioDir ops)⟩

/-- C10 witness: one start operation, and a start-then-stop run. -/
theorem audioInv_preserved_witness :
    audioInv initialAudioState = true ∧
    (audioInv (applyOp "/userData/audio" (initialAudioState, [])
        (AudioOp.start "recording-1.wav" true)).1 = true ∧
     getRecordingStatus (applyOp "/userData/audio" (initialAudioState, [])
        (AudioOp.start "recording-1.wav" true)).1 ≠
       { recording := true, path := none } ∧
     audioInv (runOps "/userData/audio"
        [AudioOp.start "recording-1.wav" true, AudioOp.stop "win32" false]).1 = true ∧
     getRecordingStatus (runOps "/userData/audio"
        [AudioOp.start "recording-1.wav" true, AudioOp.stop "win32" false]).1 ≠
       { recording := true, path := none }) :=
  ⟨rfl,
   audioInv_preserved "/userData/audio" initialAudioState []
     (AudioOp.start "recording-1.wav" true)
     [AudioOp.start "recording-1.wav" true, AudioOp.stop "win32" false] rfl⟩

end CoderAudio
